import Mathlib

/-!
Verification of the side-view RULA (Rapid Upper Limb Assessment) posture
scoring engine: camera-side detection, segment-angle geometry, joint
classifiers, the three RULA lookup tables, risk tiers and recommendations.

Points carry rational coordinates.  The external math-library primitives
used by the source (`Math.atan2` in degrees, `Math.sqrt`, `Math.acos` in
degrees) are abstracted as a parameter structure `Trig`; theorems that
depend on analytic facts about those primitives take them as explicit
hypotheses, and a concrete rational instance `ratTrig` satisfying those
facts is provided for evaluation.
-/

/-- A 2D landmark point with optional depth, coordinates in ℚ. -/
structure Pt where
  x : ℚ
  y : ℚ
  z : Option ℚ := none
deriving DecidableEq

/-- The landmark snapshot: each named slot is either absent or a point. -/
structure PostureLandmarks where
  nose : Option Pt
  leftShoulder : Option Pt
  rightShoulder : Option Pt
  leftElbow : Option Pt
  rightElbow : Option Pt
  leftWrist : Option Pt
  rightWrist : Option Pt
  leftHip : Option Pt
  rightHip : Option Pt
  leftEar : Option Pt
  rightEar : Option Pt
deriving DecidableEq

/-- The snapshot with every landmark absent. -/
def emptySnapshot : PostureLandmarks :=
  ⟨none, none, none, none, none, none, none, none, none, none, none⟩

inductive CameraSide where
  | left
  | right
  | unknown
deriving DecidableEq

inductive Risk where
  | low
  | medium
  | high
  | veryHigh
deriving DecidableEq

/-- Abstract interface for the floating-point math primitives the source
calls: `atan2deg x y` models `Math.atan2(x, y) * 180 / Math.PI`,
`sqrtq` models `Math.sqrt`, `acosdeg c` models `Math.acos(c) * 180 / Math.PI`. -/
structure Trig where
  atan2deg : ℚ → ℚ → ℚ
  sqrtq : ℚ → ℚ
  acosdeg : ℚ → ℚ

/-- Number of present (non-absent) landmarks in a list of slots. -/
def presentCount (l : List (Option Pt)) : ℕ :=
  (l.filter Option.isSome).length

/-- Count of present left-side landmarks {shoulder, elbow, wrist, hip, ear}. -/
def leftScoreOf (lm : PostureLandmarks) : ℕ :=
  presentCount [lm.leftShoulder, lm.leftElbow, lm.leftWrist, lm.leftHip, lm.leftEar]

/-- Count of present right-side landmarks {shoulder, elbow, wrist, hip, ear}. -/
def rightScoreOf (lm : PostureLandmarks) : ℕ :=
  presentCount [lm.rightShoulder, lm.rightElbow, lm.rightWrist, lm.rightHip, lm.rightEar]

/-- `detectCameraSide`: more left landmarks visible means the camera sits to
the right of the subject, and vice versa; on a tie the nose position relative to
the shoulder midpoint disambiguates; otherwise unknown. -/
def detectCameraSide (lm : PostureLandmarks) : CameraSide :=
  if rightScoreOf lm < leftScoreOf lm then .right
  else if leftScoreOf lm < rightScoreOf lm then .left
  else
    match lm.nose, lm.leftShoulder, lm.rightShoulder with
    | some n, some ls, some rs =>
        if n.x < (ls.x + rs.x) / 2 then .right else .left
    | _, _, _ => .unknown

/-- JS `a || b` on two optional points: the first if present, else the second. -/
def orElseP (a b : Option Pt) : Option Pt :=
  match a with
  | some p => some p
  | none => b

/-- The side-preferred landmark selection of `getPrimaryLandmarks`. -/
structure Primary where
  shoulder : Option Pt
  elbow : Option Pt
  wrist : Option Pt
  hip : Option Pt
  ear : Option Pt

def getPrimaryLandmarks (lm : PostureLandmarks) (cs : CameraSide) : Primary :=
  if cs = .right ∨ cs = .unknown then
    ⟨orElseP lm.leftShoulder lm.rightShoulder,
     orElseP lm.leftElbow lm.rightElbow,
     orElseP lm.leftWrist lm.rightWrist,
     orElseP lm.leftHip lm.rightHip,
     orElseP lm.leftEar lm.rightEar⟩
  else
    ⟨orElseP lm.rightShoulder lm.leftShoulder,
     orElseP lm.rightElbow lm.leftElbow,
     orElseP lm.rightWrist lm.leftWrist,
     orElseP lm.rightHip lm.leftHip,
     orElseP lm.rightEar lm.leftEar⟩

/-- `calculateAngle(p1, p2, p3)`: angle at vertex p2, dot-product formula,
zero-length guard, cosine clamped to [-1, 1] before arc-cosine. -/
def calculateAngle (T : Trig) (p1 p2 p3 : Pt) : ℚ :=
  let v1x := p1.x - p2.x
  let v1y := p1.y - p2.y
  let v2x := p3.x - p2.x
  let v2y := p3.y - p2.y
  let dot := v1x * v2x + v1y * v2y
  let mag1 := T.sqrtq (v1x * v1x + v1y * v1y)
  let mag2 := T.sqrtq (v2x * v2x + v2y * v2y)
  if mag1 = 0 ∨ mag2 = 0 then 0
  else T.acosdeg (max (-1) (min 1 (dot / (mag1 * mag2))))

/-- `calculateArmAngleFromDown`: angle of the shoulder-to-elbow vector from
the downward vertical; the horizontal delta is negated for a right-side
camera so that forward is always positive. -/
def calculateArmAngleFromDown (T : Trig) (shoulder elbow : Pt)
    (cs : CameraSide) : ℚ :=
  let dx0 := elbow.x - shoulder.x
  let dy := elbow.y - shoulder.y
  let dx := if cs = .right then -dx0 else dx0
  T.atan2deg dx dy

/-- Upper arm score (1-4), thresholds calibrated for driving. -/
def getUpperArmScore (T : Trig) (lm : PostureLandmarks) (cs : CameraSide) : ℕ :=
  match (getPrimaryLandmarks lm cs).shoulder, (getPrimaryLandmarks lm cs).elbow with
  | some shoulder, some elbow =>
      let armAngle := calculateArmAngleFromDown T shoulder elbow cs
      if 30 ≤ armAngle ∧ armAngle ≤ 90 then 1
      else if 15 ≤ armAngle ∧ armAngle < 30 then 2
      else if 90 < armAngle ∧ armAngle ≤ 110 then 2
      else if 0 ≤ armAngle ∧ armAngle < 15 then 3
      else if 110 < armAngle then 3
      else 4
  | _, _ => 2

/-- Lower arm score (1-3) from the interior elbow angle. -/
def getLowerArmScore (T : Trig) (lm : PostureLandmarks) (cs : CameraSide) : ℕ :=
  match (getPrimaryLandmarks lm cs).shoulder, (getPrimaryLandmarks lm cs).elbow,
        (getPrimaryLandmarks lm cs).wrist with
  | some shoulder, some elbow, some wrist =>
      let elbowAngle := calculateAngle T shoulder elbow wrist
      if 60 ≤ elbowAngle ∧ elbowAngle ≤ 120 then 1
      else if 45 ≤ elbowAngle ∧ elbowAngle < 60 then 2
      else if 120 < elbowAngle ∧ elbowAngle ≤ 150 then 2
      else 3
  | _, _, _ => 2

/-- Wrist score: pinned to 1, not assessable from a side view. -/
def getWristScore : ℕ := 1

/-- Neck score (1-4) from forward-head displacement ratio. -/
def getNeckScore (lm : PostureLandmarks) (cs : CameraSide) : ℕ :=
  match (getPrimaryLandmarks lm cs).ear, (getPrimaryLandmarks lm cs).shoulder with
  | some ear, some shoulder =>
      let verticalDist := |shoulder.y - ear.y|
      if verticalDist = 0 then 2
      else
        let headForward :=
          if cs = .left then ear.x - shoulder.x else shoulder.x - ear.x
        let fwdRatio := headForward / verticalDist
        if fwdRatio ≤ 15 / 100 then 1
        else if fwdRatio ≤ 3 / 10 then 2
        else if fwdRatio ≤ 1 / 2 then 3
        else 4
  | _, _ => 2

/-- Trunk score (1-4) from the hip-to-shoulder lean angle. -/
def getTrunkScore (T : Trig) (lm : PostureLandmarks) (cs : CameraSide) : ℕ :=
  match (getPrimaryLandmarks lm cs).shoulder, (getPrimaryLandmarks lm cs).hip with
  | some shoulder, some hip =>
      let dx0 := shoulder.x - hip.x
      let dy := shoulder.y - hip.y
      let dx := if cs = .right then -dx0 else dx0
      let trunkAngle := T.atan2deg dx (-dy)
      if -25 ≤ trunkAngle ∧ trunkAngle ≤ 20 then 1
      else if 20 < trunkAngle ∧ trunkAngle ≤ 35 then 2
      else if trunkAngle < -25 ∧ -40 ≤ trunkAngle then 2
      else if 35 < trunkAngle ∧ trunkAngle ≤ 50 then 3
      else 4
  | _, _ => 2

/-- RULA Table A (wrist × lower arm × upper arm). -/
def tableA : List (List (List ℕ)) :=
  [[[1, 2, 2, 2, 3], [2, 2, 2, 2, 3], [2, 3, 3, 3, 4]],
   [[2, 2, 2, 3, 3], [2, 2, 2, 3, 3], [2, 3, 3, 3, 4]],
   [[2, 3, 3, 3, 4], [2, 3, 3, 3, 4], [2, 3, 4, 4, 5]],
   [[3, 3, 3, 4, 4], [3, 3, 3, 4, 4], [3, 3, 4, 4, 5]]]

/-- RULA Table B (neck × trunk). -/
def tableB : List (List ℕ) :=
  [[1, 2, 3, 5, 7, 8],
   [2, 2, 3, 5, 7, 8],
   [3, 3, 3, 5, 7, 8],
   [5, 5, 5, 6, 7, 8],
   [7, 7, 7, 7, 7, 8],
   [8, 8, 8, 8, 8, 8]]

/-- Final RULA Table C. -/
def tableC : List (List ℕ) :=
  [[1, 2, 3, 3, 4, 5, 5],
   [2, 2, 3, 4, 4, 5, 5],
   [3, 3, 3, 4, 4, 5, 6],
   [3, 3, 3, 4, 5, 6, 6],
   [4, 4, 4, 5, 6, 7, 7],
   [4, 4, 5, 6, 6, 7, 7],
   [5, 5, 6, 6, 7, 7, 7],
   [5, 5, 6, 7, 7, 7, 7]]

/-- JS `v || d` on an optional-chained number lookup: the default applies
when the lookup is out of bounds (undefined) or the value is falsy (0). -/
def jsOrNat (o : Option ℕ) (d : ℕ) : ℕ :=
  match o with
  | some v => if v = 0 then d else v
  | none => d

/-- The optional-chained Table A lookup `tableA[min(w-1,3)]?.[min(la-1,2)]?.[min(ua-1,4)]`. -/
def scoreAopt (wrist lowerArm upperArm : ℕ) : Option ℕ :=
  (tableA[min (wrist - 1) 3]?).bind fun bl =>
    (bl[min (lowerArm - 1) 2]?).bind fun row =>
      row[min (upperArm - 1) 4]?

/-- The optional-chained Table B lookup `tableB[min(n-1,5)]?.[min(t-1,5)]`. -/
def scoreBopt (neck trunk : ℕ) : Option ℕ :=
  (tableB[min (neck - 1) 5]?).bind fun row => row[min (trunk - 1) 5]?

/-- The optional-chained Table C lookup `tableC[min(a-1,7)]?.[min(b-1,6)]`. -/
def scoreCopt (a b : ℕ) : Option ℕ :=
  (tableC[min (a - 1) 7]?).bind fun row => row[min (b - 1) 6]?

def recUpperArm : String :=
  "Adjust steering wheel height - arms should be relaxed at 9 and 3 position"

def recLowerArm : String :=
  "Move seat closer/further - elbows should be slightly bent"

def recNeck : String :=
  "Adjust headrest - keep head against it while looking at road"

def recTrunk : String :=
  "Adjust seat recline - slight backward tilt reduces back strain"

def recWrist : String :=
  "Relax grip on wheel - wrists should be straight, not bent"

def recExcellent : String :=
  "Excellent driving posture! Stay safe on the road!"

/-- `getRecommendations`: one fixed advisory per joint with score ≥ 3, in
the order upper arm, lower arm, neck, trunk, wrist; a single affirmative
string when no joint reaches the threshold. -/
def getRecommendations (upperArm lowerArm wrist neck trunk : ℕ) : List String :=
  let recs :=
    (if 3 ≤ upperArm then [recUpperArm] else []) ++
    (if 3 ≤ lowerArm then [recLowerArm] else []) ++
    (if 3 ≤ neck then [recNeck] else []) ++
    (if 3 ≤ trunk then [recTrunk] else []) ++
    (if 3 ≤ wrist then [recWrist] else [])
  if recs = [] then [recExcellent] else recs

/-- The risk branch of `calculateRULAScore`. -/
def riskOf (finalScore : ℕ) : Risk :=
  if finalScore ≤ 2 then .low
  else if finalScore ≤ 4 then .medium
  else if finalScore ≤ 6 then .high
  else .veryHigh

/-- The output aggregate of the engine. -/
structure RULAScores where
  upperArm : ℕ
  lowerArm : ℕ
  wrist : ℕ
  neck : ℕ
  trunk : ℕ
  finalScore : ℕ
  risk : Risk
  recommendations : List String
  cameraSide : CameraSide
deriving DecidableEq

/-- `calculateRULAScore`: the full engine pipeline. -/
def calculateRULAScore (T : Trig) (lm : PostureLandmarks) : RULAScores :=
  let cameraSide := detectCameraSide lm
  let upperArm := getUpperArmScore T lm cameraSide
  let lowerArm := getLowerArmScore T lm cameraSide
  let wrist := getWristScore
  let neck := getNeckScore lm cameraSide
  let trunk := getTrunkScore T lm cameraSide
  let scoreA := jsOrNat (scoreAopt wrist lowerArm upperArm) 3
  let scoreB := jsOrNat (scoreBopt neck trunk) 4
  let finalScore := jsOrNat (scoreCopt scoreA scoreB) 5
  { upperArm := upperArm
    lowerArm := lowerArm
    wrist := wrist
    neck := neck
    trunk := trunk
    finalScore := finalScore
    risk := riskOf finalScore
    recommendations := getRecommendations upperArm lowerArm wrist neck trunk
    cameraSide := cameraSide }

/-- A bounded rational arctangent-like function: odd, zero at zero,
sign-preserving, valued in (-90, 90). -/
def ratArc (t : ℚ) : ℚ := 90 * t / (1 + |t|)

/-- A concrete rational stand-in for `Math.atan2` in degrees, preserving
the sign and quadrant behaviour the classifiers depend on. -/
def ratAtan2deg (x y : ℚ) : ℚ :=
  if 0 < y then ratArc (x / y)
  else if x < 0 then -90
  else if 0 < x then 90
  else if y < 0 then 180
  else 0

/-- A rational stand-in for `Math.sqrt` with `sqrt 0 = 0`. -/
def ratSqrt (x : ℚ) : ℚ := if x ≤ 0 then 0 else 1

/-- A rational stand-in for `Math.acos` in degrees, mapping [-1,1] onto [0,180]. -/
def ratAcos (c : ℚ) : ℚ := 90 * (1 - c)

/-- The concrete rational trig oracle used to evaluate witnesses. -/
def ratTrig : Trig := ⟨ratAtan2deg, ratSqrt, ratAcos⟩

/-! ### Properties of the concrete rational trig oracle -/

lemma ratArc_zero : ratArc 0 = 0 := by
  unfold ratArc
  norm_num

lemma ratArc_pos (t : ℚ) (ht : 0 < t) : 0 < ratArc t := by
  unfold ratArc
  have h1 : 0 < 1 + |t| := by positivity
  have h2 : 0 < 90 * t := by linarith
  exact div_pos h2 h1

lemma ratArc_neg (t : ℚ) (ht : t < 0) : ratArc t < 0 := by
  unfold ratArc
  have h1 : 0 < 1 + |t| := by positivity
  have h2 : 90 * t < 0 := by linarith
  exact div_neg_of_neg_of_pos h2 h1

lemma ratAtan2deg_zero_of_pos (d : ℚ) (hd : 0 < d) : ratAtan2deg 0 d = 0 := by
  unfold ratAtan2deg
  rw [if_pos hd, zero_div, ratArc_zero]

lemma ratAtan2deg_pos (x y : ℚ) (hx : 0 < x) : 0 < ratAtan2deg x y := by
  unfold ratAtan2deg
  split_ifs with h1 h2
  · exact ratArc_pos _ (div_pos hx h1)
  · linarith
  · norm_num

lemma ratAtan2deg_neg_of_pos (x y : ℚ) (hx : x < 0) (hy : 0 < y) :
    ratAtan2deg x y < 0 := by
  unfold ratAtan2deg
  rw [if_pos hy]
  exact ratArc_neg _ (div_neg_of_neg_of_pos hx hy)

lemma ratTrig_sqrt_zero : ratTrig.sqrtq 0 = 0 := by
  show ratSqrt 0 = 0
  unfold ratSqrt
  norm_num

lemma ratTrig_acos_range (c : ℚ) (h1 : -1 ≤ c) (h2 : c ≤ 1) :
    0 ≤ ratTrig.acosdeg c ∧ ratTrig.acosdeg c ≤ 180 := by
  show 0 ≤ ratAcos c ∧ ratAcos c ≤ 180
  unfold ratAcos
  constructor <;> nlinarith

/-! ### Ranges of the joint classifiers -/

lemma getUpperArmScore_range (T : Trig) (lm : PostureLandmarks) (cs : CameraSide) :
    1 ≤ getUpperArmScore T lm cs ∧ getUpperArmScore T lm cs ≤ 4 := by
  unfold getUpperArmScore
  rcases (getPrimaryLandmarks lm cs).shoulder with _ | s <;>
    rcases (getPrimaryLandmarks lm cs).elbow with _ | e <;>
    simp only [] <;>
    first
      | omega
      | (split_ifs <;> omega)

lemma getLowerArmScore_range (T : Trig) (lm : PostureLandmarks) (cs : CameraSide) :
    1 ≤ getLowerArmScore T lm cs ∧ getLowerArmScore T lm cs ≤ 3 := by
  unfold getLowerArmScore
  rcases (getPrimaryLandmarks lm cs).shoulder with _ | s <;>
    rcases (getPrimaryLandmarks lm cs).elbow with _ | e <;>
    rcases (getPrimaryLandmarks lm cs).wrist with _ | w <;>
    simp only [] <;>
    first
      | omega
      | (split_ifs <;> omega)

lemma getNeckScore_range (lm : PostureLandmarks) (cs : CameraSide) :
    1 ≤ getNeckScore lm cs ∧ getNeckScore lm cs ≤ 4 := by
  unfold getNeckScore
  rcases (getPrimaryLandmarks lm cs).ear with _ | e <;>
    rcases (getPrimaryLandmarks lm cs).shoulder with _ | s <;>
    simp only [] <;>
    first
      | omega
      | (split_ifs <;> omega)

lemma getTrunkScore_range (T : Trig) (lm : PostureLandmarks) (cs : CameraSide) :
    1 ≤ getTrunkScore T lm cs ∧ getTrunkScore T lm cs ≤ 4 := by
  unfold getTrunkScore
  rcases (getPrimaryLandmarks lm cs).shoulder with _ | s <;>
    rcases (getPrimaryLandmarks lm cs).hip with _ | h <;>
    simp only [] <;>
    first
      | omega
      | (split_ifs <;> omega)

/-! ### Table lookup facts over the reachable score ranges -/

lemma tableFactA (la ua : ℕ) (h1 : 1 ≤ la) (h2 : la ≤ 3) (h3 : 1 ≤ ua) (h4 : ua ≤ 4) :
    (scoreAopt 1 la ua).isSome = true ∧
    jsOrNat (scoreAopt 1 la ua) 3 ∈ tableA.flatten.flatten ∧
    1 ≤ jsOrNat (scoreAopt 1 la ua) 3 ∧ jsOrNat (scoreAopt 1 la ua) 3 ≤ 4 := by
  interval_cases la <;> interval_cases ua <;> decide

lemma tableFactB (n t : ℕ) (h1 : 1 ≤ n) (h2 : n ≤ 4) (h3 : 1 ≤ t) (h4 : t ≤ 4) :
    (scoreBopt n t).isSome = true ∧
    jsOrNat (scoreBopt n t) 4 ∈ tableB.flatten ∧
    1 ≤ jsOrNat (scoreBopt n t) 4 ∧ jsOrNat (scoreBopt n t) 4 ≤ 6 := by
  interval_cases n <;> interval_cases t <;> decide

lemma tableFactC (a b : ℕ) (h1 : 1 ≤ a) (h2 : a ≤ 4) (h3 : 1 ≤ b) (h4 : b ≤ 6) :
    (scoreCopt a b).isSome = true ∧
    jsOrNat (scoreCopt a b) 5 ∈ tableC.flatten ∧
    1 ≤ jsOrNat (scoreCopt a b) 5 ∧ jsOrNat (scoreCopt a b) 5 ≤ 6 := by
  interval_cases a <;> interval_cases b <;> decide

/-! ### Projections of the engine result -/

lemma calcRULA_upperArm (T : Trig) (lm : PostureLandmarks) :
    (calculateRULAScore T lm).upperArm = getUpperArmScore T lm (detectCameraSide lm) := rfl

lemma calcRULA_lowerArm (T : Trig) (lm : PostureLandmarks) :
    (calculateRULAScore T lm).lowerArm = getLowerArmScore T lm (detectCameraSide lm) := rfl

lemma calcRULA_wrist (T : Trig) (lm : PostureLandmarks) :
    (calculateRULAScore T lm).wrist = 1 := rfl

lemma calcRULA_neck (T : Trig) (lm : PostureLandmarks) :
    (calculateRULAScore T lm).neck = getNeckScore lm (detectCameraSide lm) := rfl

lemma calcRULA_trunk (T : Trig) (lm : PostureLandmarks) :
    (calculateRULAScore T lm).trunk = getTrunkScore T lm (detectCameraSide lm) := rfl

lemma calcRULA_finalScore (T : Trig) (lm : PostureLandmarks) :
    (calculateRULAScore T lm).finalScore =
      jsOrNat (scoreCopt
        (jsOrNat (scoreAopt 1 (getLowerArmScore T lm (detectCameraSide lm))
          (getUpperArmScore T lm (detectCameraSide lm))) 3)
        (jsOrNat (scoreBopt (getNeckScore lm (detectCameraSide lm))
          (getTrunkScore T lm (detectCameraSide lm))) 4)) 5 := rfl

lemma calcRULA_risk (T : Trig) (lm : PostureLandmarks) :
    (calculateRULAScore T lm).risk = riskOf (calculateRULAScore T lm).finalScore := rfl

lemma calcRULA_recommendations (T : Trig) (lm : PostureLandmarks) :
    (calculateRULAScore T lm).recommendations =
      getRecommendations (getUpperArmScore T lm (detectCameraSide lm))
        (getLowerArmScore T lm (detectCameraSide lm)) 1
        (getNeckScore lm (detectCameraSide lm))
        (getTrunkScore T lm (detectCameraSide lm)) := rfl

lemma getRecommendations_ne_nil (ua la w n t : ℕ) :
    getRecommendations ua la w n t ≠ [] := by
  simp only [getRecommendations]
  split_ifs <;> simp_all

lemma riskOf_ne_veryHigh (n : ℕ) (h : n ≤ 6) : riskOf n ≠ .veryHigh := by
  unfold riskOf
  split_ifs <;> simp_all

/-- Claim C1: for every landmark snapshot (including the empty one), the
engine returns a structurally complete result: each joint score lies in its
documented range (upper arm 1-4, lower arm 1-3, wrist 1-4, neck 1-4,
trunk 1-4), the Table A, Table B and Table C lookups are in bounds and
yield values from the entries of the respective table, the final score is the
Table C lookup and lies in 1-7, and the recommendation list is non-empty. -/
theorem claim_C1 (T : Trig) (lm : PostureLandmarks) :
    (1 ≤ (calculateRULAScore T lm).upperArm ∧ (calculateRULAScore T lm).upperArm ≤ 4) ∧
    (1 ≤ (calculateRULAScore T lm).lowerArm ∧ (calculateRULAScore T lm).lowerArm ≤ 3) ∧
    (1 ≤ (calculateRULAScore T lm).wrist ∧ (calculateRULAScore T lm).wrist ≤ 4) ∧
    (1 ≤ (calculateRULAScore T lm).neck ∧ (calculateRULAScore T lm).neck ≤ 4) ∧
    (1 ≤ (calculateRULAScore T lm).trunk ∧ (calculateRULAScore T lm).trunk ≤ 4) ∧
    (scoreAopt (calculateRULAScore T lm).wrist (calculateRULAScore T lm).lowerArm
      (calculateRULAScore T lm).upperArm).isSome = true ∧
    jsOrNat (scoreAopt (calculateRULAScore T lm).wrist (calculateRULAScore T lm).lowerArm
      (calculateRULAScore T lm).upperArm) 3 ∈ tableA.flatten.flatten ∧
    (scoreBopt (calculateRULAScore T lm).neck (calculateRULAScore T lm).trunk).isSome = true ∧
    jsOrNat (scoreBopt (calculateRULAScore T lm).neck
      (calculateRULAScore T lm).trunk) 4 ∈ tableB.flatten ∧
    (scoreCopt
      (jsOrNat (scoreAopt (calculateRULAScore T lm).wrist (calculateRULAScore T lm).lowerArm
        (calculateRULAScore T lm).upperArm) 3)
      (jsOrNat (scoreBopt (calculateRULAScore T lm).neck
        (calculateRULAScore T lm).trunk) 4)).isSome = true ∧
    (calculateRULAScore T lm).finalScore =
      jsOrNat (scoreCopt
        (jsOrNat (scoreAopt (calculateRULAScore T lm).wrist (calculateRULAScore T lm).lowerArm
          (calculateRULAScore T lm).upperArm) 3)
        (jsOrNat (scoreBopt (calculateRULAScore T lm).neck
          (calculateRULAScore T lm).trunk) 4)) 5 ∧
    (calculateRULAScore T lm).finalScore ∈ tableC.flatten ∧
    1 ≤ (calculateRULAScore T lm).finalScore ∧ (calculateRULAScore T lm).finalScore ≤ 7 ∧
    (calculateRULAScore T lm).recommendations ≠ [] := by
  obtain ⟨hu1, hu2⟩ := getUpperArmScore_range T lm (detectCameraSide lm)
  obtain ⟨hl1, hl2⟩ := getLowerArmScore_range T lm (detectCameraSide lm)
  obtain ⟨hn1, hn2⟩ := getNeckScore_range lm (detectCameraSide lm)
  obtain ⟨ht1, ht2⟩ := getTrunkScore_range T lm (detectCameraSide lm)
  have hA := tableFactA _ _ hl1 hl2 hu1 hu2
  have hB := tableFactB _ _ hn1 hn2 ht1 ht2
  have hC := tableFactC _ _ hA.2.2.1 hA.2.2.2 hB.2.2.1 hB.2.2.2
  simp only [calcRULA_upperArm, calcRULA_lowerArm, calcRULA_wrist, calcRULA_neck,
    calcRULA_trunk, calcRULA_finalScore, calcRULA_recommendations]
  refine ⟨⟨hu1, hu2⟩, ⟨hl1, hl2⟩, ?_, ⟨hn1, hn2⟩, ⟨ht1, ht2⟩,
    hA.1, hA.2.1, hB.1, hB.2.1, hC.1, ?_, hC.2.1, hC.2.2.1,
    le_trans hC.2.2.2 (by norm_num), getRecommendations_ne_nil _ _ _ _ _⟩ <;> simp

/-- Claim C3: the risk tier is a pure step function of the final score over
the full 1-7 domain: 1-2 low, 3-4 medium, 5-6 high, 7 and above very-high;
and the risk field of the engine is exactly this function of its final score. -/
theorem claim_C3 :
    (∀ n : ℕ, 1 ≤ n → n ≤ 2 → riskOf n = .low) ∧
    (∀ n : ℕ, 3 ≤ n → n ≤ 4 → riskOf n = .medium) ∧
    (∀ n : ℕ, 5 ≤ n → n ≤ 6 → riskOf n = .high) ∧
    (∀ n : ℕ, 7 ≤ n → riskOf n = .veryHigh) ∧
    (∀ (T : Trig) (lm : PostureLandmarks),
      (calculateRULAScore T lm).risk = riskOf (calculateRULAScore T lm).finalScore) := by
  refine ⟨?_, ?_, ?_, ?_, fun T lm => calcRULA_risk T lm⟩
  · intro n h1 h2
    unfold riskOf
    rw [if_pos (by omega)]
  · intro n h1 h2
    unfold riskOf
    rw [if_neg (by omega), if_pos (by omega)]
  · intro n h1 h2
    unfold riskOf
    rw [if_neg (by omega), if_neg (by omega), if_pos (by omega)]
  · intro n h1
    unfold riskOf
    rw [if_neg (by omega), if_neg (by omega), if_neg (by omega)]

theorem claim_C3_witness :
    riskOf 1 = .low ∧ riskOf 3 = .medium ∧ riskOf 5 = .high ∧ riskOf 7 = .veryHigh :=
  ⟨claim_C3.1 1 (by norm_num) (by norm_num),
   claim_C3.2.1 3 (by norm_num) (by norm_num),
   claim_C3.2.2.1 5 (by norm_num) (by norm_num),
   claim_C3.2.2.2.1 7 (by norm_num)⟩

/-- Claim C6: on the fully empty snapshot every joint resolves to its
neutral default (2, 2, 1, 2, 2), the tables resolve to a final score of 2,
the risk is low, the camera side is unknown, and the recommendation list is
exactly the single affirmative string. -/
theorem claim_C6 (T : Trig) :
    calculateRULAScore T emptySnapshot =
      { upperArm := 2, lowerArm := 2, wrist := 1, neck := 2, trunk := 2,
        finalScore := 2, risk := .low, recommendations := [recExcellent],
        cameraSide := .unknown } := rfl

theorem claim_C6_witness :
    calculateRULAScore ratTrig emptySnapshot =
      { upperArm := 2, lowerArm := 2, wrist := 1, neck := 2, trunk := 2,
        finalScore := 2, risk := .low, recommendations := [recExcellent],
        cameraSide := .unknown } := claim_C6 ratTrig

/-- Claim C10: for every snapshot the final combined score of the side-view
engine never exceeds 6, hence the very-high risk tier is unreachable. -/
theorem claim_C10 (T : Trig) (lm : PostureLandmarks) :
    (calculateRULAScore T lm).finalScore ≤ 6 ∧
    (calculateRULAScore T lm).risk ≠ .veryHigh := by
  obtain ⟨hu1, hu2⟩ := getUpperArmScore_range T lm (detectCameraSide lm)
  obtain ⟨hl1, hl2⟩ := getLowerArmScore_range T lm (detectCameraSide lm)
  obtain ⟨hn1, hn2⟩ := getNeckScore_range lm (detectCameraSide lm)
  obtain ⟨ht1, ht2⟩ := getTrunkScore_range T lm (detectCameraSide lm)
  have hA := tableFactA _ _ hl1 hl2 hu1 hu2
  have hB := tableFactB _ _ hn1 hn2 ht1 ht2
  have hC := tableFactC _ _ hA.2.2.1 hA.2.2.2 hB.2.2.1 hB.2.2.2
  have hfs : (calculateRULAScore T lm).finalScore ≤ 6 := by
    rw [calcRULA_finalScore]
    exact hC.2.2.2
  refine ⟨hfs, ?_⟩
  rw [calcRULA_risk]
  exact riskOf_ne_veryHigh _ hfs

/-- Reflection of a point across the vertical image midline (x = 1/2). -/
def mirrorPt (p : Pt) : Pt := ⟨1 - p.x, p.y, p.z⟩

def mirrorOpt (o : Option Pt) : Option Pt := o.map mirrorPt

/-- Mirror a snapshot: swap each left/right landmark pair and reflect every
x coordinate across the vertical image midline. -/
def mirrorSnapshot (lm : PostureLandmarks) : PostureLandmarks :=
  ⟨mirrorOpt lm.nose,
   mirrorOpt lm.rightShoulder, mirrorOpt lm.leftShoulder,
   mirrorOpt lm.rightElbow, mirrorOpt lm.leftElbow,
   mirrorOpt lm.rightWrist, mirrorOpt lm.leftWrist,
   mirrorOpt lm.rightHip, mirrorOpt lm.leftHip,
   mirrorOpt lm.rightEar, mirrorOpt lm.leftEar⟩

/-- Claim C2: the angle-from-downward-vertical computation normalizes for
camera orientation: for a right-side camera it agrees with the left-side
computation on the x-reflected points; the angle is 0 whenever the elbow is
directly below the shoulder; and forward (toward the direction of gaze)
yields a strictly positive angle on either side. -/
theorem claim_C2 (T : Trig)
    (hz : ∀ d : ℚ, 0 < d → T.atan2deg 0 d = 0)
    (hpos : ∀ x y : ℚ, 0 < x → 0 < T.atan2deg x y) :
    (∀ p q : Pt, calculateArmAngleFromDown T p q .right =
      calculateArmAngleFromDown T (mirrorPt p) (mirrorPt q) .left) ∧
    (∀ (p q : Pt) (cs : CameraSide), q.x = p.x → p.y < q.y →
      calculateArmAngleFromDown T p q cs = 0) ∧
    (∀ p q : Pt, q.x < p.x → 0 < calculateArmAngleFromDown T p q .right) ∧
    (∀ p q : Pt, p.x < q.x → 0 < calculateArmAngleFromDown T p q .left) := by
  refine ⟨?_, ?_, ?_, ?_⟩
  · intro p q
    show T.atan2deg (-(q.x - p.x)) (q.y - p.y) =
      T.atan2deg ((1 - q.x) - (1 - p.x)) (q.y - p.y)
    congr 1
    ring
  · intro p q cs hx hy
    have hdx : q.x - p.x = 0 := by rw [hx]; ring
    cases cs
    · show T.atan2deg (q.x - p.x) (q.y - p.y) = 0
      rw [hdx]
      exact hz _ (by linarith)
    · show T.atan2deg (-(q.x - p.x)) (q.y - p.y) = 0
      rw [hdx, neg_zero]
      exact hz _ (by linarith)
    · show T.atan2deg (q.x - p.x) (q.y - p.y) = 0
      rw [hdx]
      exact hz _ (by linarith)
  · intro p q h
    show 0 < T.atan2deg (-(q.x - p.x)) (q.y - p.y)
    exact hpos _ _ (by linarith)
  · intro p q h
    show 0 < T.atan2deg (q.x - p.x) (q.y - p.y)
    exact hpos _ _ (by linarith)

theorem claim_C2_witness :
    calculateArmAngleFromDown ratTrig ⟨0, 0, none⟩ ⟨0, 1, none⟩ .right = 0 ∧
    0 < calculateArmAngleFromDown ratTrig ⟨1, 0, none⟩ ⟨0, 1, none⟩ .right := by
  have h := claim_C2 ratTrig (fun d hd => ratAtan2deg_zero_of_pos d hd)
    (fun x y hx => ratAtan2deg_pos x y hx)
  exact ⟨h.2.1 ⟨0, 0, none⟩ ⟨0, 1, none⟩ .right rfl (by norm_num),
    h.2.2.1 ⟨1, 0, none⟩ ⟨0, 1, none⟩ (by norm_num)⟩

/-- Claim C9: the three-point angle calculation is total and safe: it
returns 0 when either the p1-to-p2 or the p3-to-p2 vector is zero, and the
clamping of the cosine to [-1, 1] keeps the result within [0, 180]. -/
theorem claim_C9 (T : Trig) (h0 : T.sqrtq 0 = 0)
    (hacos : ∀ c : ℚ, -1 ≤ c → c ≤ 1 → 0 ≤ T.acosdeg c ∧ T.acosdeg c ≤ 180) :
    ∀ p1 p2 p3 : Pt,
      ((p1.x = p2.x ∧ p1.y = p2.y) ∨ (p3.x = p2.x ∧ p3.y = p2.y) →
        calculateAngle T p1 p2 p3 = 0) ∧
      0 ≤ calculateAngle T p1 p2 p3 ∧ calculateAngle T p1 p2 p3 ≤ 180 := by
  intro p1 p2 p3
  constructor
  · rintro (⟨hx, hy⟩ | ⟨hx, hy⟩)
    · have e : (p1.x - p2.x) * (p1.x - p2.x) + (p1.y - p2.y) * (p1.y - p2.y) = 0 := by
        rw [hx, hy]; ring
      simp only [calculateAngle]
      rw [e, h0]
      simp
    · have e : (p3.x - p2.x) * (p3.x - p2.x) + (p3.y - p2.y) * (p3.y - p2.y) = 0 := by
        rw [hx, hy]; ring
      simp only [calculateAngle]
      rw [e, h0]
      simp
  · simp only [calculateAngle]
    split_ifs with h
    · norm_num
    · exact hacos _ (le_max_left _ _) (max_le (by norm_num) (min_le_left _ _))

theorem claim_C9_witness :
    calculateAngle ratTrig ⟨0, 0, none⟩ ⟨0, 0, none⟩ ⟨1, 1, none⟩ = 0 ∧
    0 ≤ calculateAngle ratTrig ⟨1, 0, none⟩ ⟨0, 0, none⟩ ⟨0, 1, none⟩ ∧
    calculateAngle ratTrig ⟨1, 0, none⟩ ⟨0, 0, none⟩ ⟨0, 1, none⟩ ≤ 180 := by
  have h := claim_C9 ratTrig ratTrig_sqrt_zero ratTrig_acos_range
  exact ⟨(h _ _ _).1 (Or.inl ⟨rfl, rfl⟩), (h _ _ _).2⟩

/-! ### Camera-side detection helpers -/

lemma detect_right_of_lt (lm : PostureLandmarks)
    (h : rightScoreOf lm < leftScoreOf lm) : detectCameraSide lm = .right := by
  unfold detectCameraSide
  rw [if_pos h]

lemma detect_left_of_lt (lm : PostureLandmarks)
    (h : leftScoreOf lm < rightScoreOf lm) : detectCameraSide lm = .left := by
  unfold detectCameraSide
  rw [if_neg (by omega), if_pos h]

lemma detect_tie_some (lm : PostureLandmarks) (n ls rs : Pt)
    (heq : leftScoreOf lm = rightScoreOf lm)
    (hn : lm.nose = some n) (hls : lm.leftShoulder = some ls)
    (hrs : lm.rightShoulder = some rs) :
    detectCameraSide lm =
      (if n.x < (ls.x + rs.x) / 2 then .right else .left) := by
  unfold detectCameraSide
  rw [if_neg (by omega), if_neg (by omega), hn, hls, hrs]

lemma detect_tie_unknown (lm : PostureLandmarks)
    (heq : leftScoreOf lm = rightScoreOf lm)
    (h : lm.nose = none ∨ lm.leftShoulder = none ∨ lm.rightShoulder = none) :
    detectCameraSide lm = .unknown := by
  unfold detectCameraSide
  rw [if_neg (by omega), if_neg (by omega)]
  rcases hn : lm.nose with _ | n <;>
    rcases hls : lm.leftShoulder with _ | ls <;>
      rcases hrs : lm.rightShoulder with _ | rs <;>
        simp_all

/-- Claim C4: full characterization of `detectCameraSide`: strictly more
left landmarks present gives right, strictly more right landmarks gives
left; on a tie with nose and both shoulders present the nose-vs-shoulder-
midline test decides; unknown exactly when the counts tie and the nose or
a shoulder is absent. -/
theorem claim_C4 (lm : PostureLandmarks) :
    (rightScoreOf lm < leftScoreOf lm → detectCameraSide lm = .right) ∧
    (leftScoreOf lm < rightScoreOf lm → detectCameraSide lm = .left) ∧
    (leftScoreOf lm = rightScoreOf lm →
      ∀ n ls rs : Pt, lm.nose = some n → lm.leftShoulder = some ls →
        lm.rightShoulder = some rs →
        (n.x < (ls.x + rs.x) / 2 → detectCameraSide lm = .right) ∧
        (¬ n.x < (ls.x + rs.x) / 2 → detectCameraSide lm = .left)) ∧
    (detectCameraSide lm = .unknown ↔
      leftScoreOf lm = rightScoreOf lm ∧
      (lm.nose = none ∨ lm.leftShoulder = none ∨ lm.rightShoulder = none)) := by
  refine ⟨detect_right_of_lt lm, detect_left_of_lt lm, ?_, ?_⟩
  · intro heq n ls rs hn hls hrs
    rw [detect_tie_some lm n ls rs heq hn hls hrs]
    constructor
    · intro hx
      rw [if_pos hx]
    · intro hx
      rw [if_neg hx]
  · constructor
    · intro hu
      rcases lt_trichotomy (leftScoreOf lm) (rightScoreOf lm) with hlt | heq | hgt
      · rw [detect_left_of_lt lm hlt] at hu
        cases hu
      · refine ⟨heq, ?_⟩
        by_contra hcon
        push_neg at hcon
        obtain ⟨hn, hls, hrs⟩ := hcon
        rcases hn' : lm.nose with _ | n
        · exact hn hn'
        rcases hls' : lm.leftShoulder with _ | ls
        · exact hls hls'
        rcases hrs' : lm.rightShoulder with _ | rs
        · exact hrs hrs'
        rw [detect_tie_some lm n ls rs heq hn' hls' hrs'] at hu
        split_ifs at hu
      · rw [detect_right_of_lt lm hgt] at hu
        cases hu
    · rintro ⟨heq, h⟩
      exact detect_tie_unknown lm heq h

def c4WitnessSnapshot : PostureLandmarks :=
  { emptySnapshot with leftShoulder := some ⟨1/2, 1/2, none⟩ }

theorem claim_C4_witness : detectCameraSide c4WitnessSnapshot = .right :=
  (claim_C4 c4WitnessSnapshot).1 (by decide)

lemma leftScoreOf_mirror (lm : PostureLandmarks) :
    leftScoreOf (mirrorSnapshot lm) = rightScoreOf lm := by
  unfold leftScoreOf rightScoreOf mirrorSnapshot mirrorOpt presentCount
  cases lm.rightShoulder <;> cases lm.rightElbow <;> cases lm.rightWrist <;>
    cases lm.rightHip <;> cases lm.rightEar <;> rfl

lemma rightScoreOf_mirror (lm : PostureLandmarks) :
    rightScoreOf (mirrorSnapshot lm) = leftScoreOf lm := by
  unfold leftScoreOf rightScoreOf mirrorSnapshot mirrorOpt presentCount
  cases lm.leftShoulder <;> cases lm.leftElbow <;> cases lm.leftWrist <;>
    cases lm.leftHip <;> cases lm.leftEar <;> rfl

/-- Claim C8 (amended): mirroring a snapshot flips a resolved camera side
and preserves unknown, except in one boundary case: when the visibility
counts tie and the nose lies exactly on the shoulder midline, both the
original and the mirrored snapshot resolve to left. -/
theorem claim_C8 (lm : PostureLandmarks) :
    (detectCameraSide lm = .right → detectCameraSide (mirrorSnapshot lm) = .left) ∧
    (detectCameraSide lm = .unknown → detectCameraSide (mirrorSnapshot lm) = .unknown) ∧
    (detectCameraSide lm = .left →
      detectCameraSide (mirrorSnapshot lm) = .right ∨
      (detectCameraSide (mirrorSnapshot lm) = .left ∧
        leftScoreOf lm = rightScoreOf lm ∧
        ∃ n ls rs : Pt, lm.nose = some n ∧ lm.leftShoulder = some ls ∧
          lm.rightShoulder = some rs ∧ n.x = (ls.x + rs.x) / 2)) := by
  rcases lt_trichotomy (leftScoreOf lm) (rightScoreOf lm) with hlt | heq | hgt
  · have hd : detectCameraSide lm = .left := detect_left_of_lt lm hlt
    have hm : detectCameraSide (mirrorSnapshot lm) = .right := by
      apply detect_right_of_lt
      rw [leftScoreOf_mirror, rightScoreOf_mirror]
      exact hlt
    refine ⟨fun h => ?_, fun h => ?_, fun _ => Or.inl hm⟩
    · rw [hd] at h; cases h
    · rw [hd] at h; cases h
  · rcases hn : lm.nose with _ | n
    · have hd : detectCameraSide lm = .unknown :=
        detect_tie_unknown lm heq (Or.inl hn)
      have hm : detectCameraSide (mirrorSnapshot lm) = .unknown := by
        apply detect_tie_unknown
        · rw [leftScoreOf_mirror, rightScoreOf_mirror]; omega
        · left
          show mirrorOpt lm.nose = none
          rw [hn]; rfl
      refine ⟨fun h => ?_, fun _ => hm, fun h => ?_⟩
      · rw [hd] at h; cases h
      · rw [hd] at h; cases h
    · rcases hls : lm.leftShoulder with _ | ls
      · have hd : detectCameraSide lm = .unknown :=
          detect_tie_unknown lm heq (Or.inr (Or.inl hls))
        have hm : detectCameraSide (mirrorSnapshot lm) = .unknown := by
          apply detect_tie_unknown
          · rw [leftScoreOf_mirror, rightScoreOf_mirror]; omega
          · right; right
            show mirrorOpt lm.leftShoulder = none
            rw [hls]; rfl
        refine ⟨fun h => ?_, fun _ => hm, fun h => ?_⟩
        · rw [hd] at h; cases h
        · rw [hd] at h; cases h
      · rcases hrs : lm.rightShoulder with _ | rs
        · have hd : detectCameraSide lm = .unknown :=
            detect_tie_unknown lm heq (Or.inr (Or.inr hrs))
          have hm : detectCameraSide (mirrorSnapshot lm) = .unknown := by
            apply detect_tie_unknown
            · rw [leftScoreOf_mirror, rightScoreOf_mirror]; omega
            · right; left
              show mirrorOpt lm.rightShoulder = none
              rw [hrs]; rfl
          refine ⟨fun h => ?_, fun _ => hm, fun h => ?_⟩
          · rw [hd] at h; cases h
          · rw [hd] at h; cases h
        · have hd := detect_tie_some lm n ls rs heq hn hls hrs
          have heq' : leftScoreOf (mirrorSnapshot lm) =
              rightScoreOf (mirrorSnapshot lm) := by
            rw [leftScoreOf_mirror, rightScoreOf_mirror]; omega
          have hn' : (mirrorSnapshot lm).nose = some (mirrorPt n) := by
            show mirrorOpt lm.nose = some (mirrorPt n)
            rw [hn]; rfl
          have hls' : (mirrorSnapshot lm).leftShoulder = some (mirrorPt rs) := by
            show mirrorOpt lm.rightShoulder = some (mirrorPt rs)
            rw [hrs]; rfl
          have hrs' : (mirrorSnapshot lm).rightShoulder = some (mirrorPt ls) := by
            show mirrorOpt lm.leftShoulder = some (mirrorPt ls)
            rw [hls]; rfl
          have hm := detect_tie_some (mirrorSnapshot lm) (mirrorPt n)
            (mirrorPt rs) (mirrorPt ls) heq' hn' hls' hrs'
          have hxm : (mirrorPt n).x = 1 - n.x := rfl
          have hxl : (mirrorPt rs).x = 1 - rs.x := rfl
          have hxr : (mirrorPt ls).x = 1 - ls.x := rfl
          rw [hxm, hxl, hxr] at hm
          rcases lt_trichotomy n.x ((ls.x + rs.x) / 2) with hx | hx | hx
          · have ho : detectCameraSide lm = .right := by rw [hd, if_pos hx]
            have hmo : detectCameraSide (mirrorSnapshot lm) = .left := by
              rw [hm, if_neg (by intro hc; linarith)]
            refine ⟨fun _ => hmo, fun h => ?_, fun h => ?_⟩
            · rw [ho] at h; cases h
            · rw [ho] at h; cases h
          · have ho : detectCameraSide lm = .left := by
              rw [hd, if_neg (by linarith)]
            have hmo : detectCameraSide (mirrorSnapshot lm) = .left := by
              rw [hm, if_neg (by intro hc; linarith)]
            refine ⟨fun h => ?_, fun h => ?_, fun _ => ?_⟩
            · rw [ho] at h; cases h
            · rw [ho] at h; cases h
            · exact Or.inr ⟨hmo, heq, n, ls, rs, rfl, rfl, rfl, hx⟩
          · have ho : detectCameraSide lm = .left := by
              rw [hd, if_neg (by linarith)]
            have hmo : detectCameraSide (mirrorSnapshot lm) = .right := by
              rw [hm, if_pos (by linarith)]
            refine ⟨fun h => ?_, fun h => ?_, fun _ => Or.inl hmo⟩
            · rw [ho] at h; cases h
            · rw [ho] at h; cases h
  · have hd : detectCameraSide lm = .right := detect_right_of_lt lm hgt
    have hm : detectCameraSide (mirrorSnapshot lm) = .left := by
      apply detect_left_of_lt
      rw [leftScoreOf_mirror, rightScoreOf_mirror]
      exact hgt
    refine ⟨fun _ => hm, fun h => ?_, fun h => ?_⟩
    · rw [hd] at h; cases h
    · rw [hd] at h; cases h

/-- The boundary snapshot for claim C8: visibility counts tie and the nose
sits exactly on the shoulder midline. -/
def c8Boundary : PostureLandmarks :=
  { emptySnapshot with
    nose := some ⟨1/2, 3/10, none⟩
    leftShoulder := some ⟨2/5, 1/2, none⟩
    rightShoulder := some ⟨3/5, 1/2, none⟩ }

theorem claim_C8_counterexample :
    detectCameraSide c8Boundary = .left ∧
    detectCameraSide (mirrorSnapshot c8Boundary) = .left := by
  constructor
  · rw [detect_tie_some c8Boundary ⟨1/2, 3/10, none⟩ ⟨2/5, 1/2, none⟩
      ⟨3/5, 1/2, none⟩ rfl rfl rfl rfl]
    have hc : ¬ ((⟨1/2, 3/10, none⟩ : Pt).x <
        ((⟨2/5, 1/2, none⟩ : Pt).x + (⟨3/5, 1/2, none⟩ : Pt).x) / 2) := by
      norm_num
    rw [if_neg hc]
  · rw [detect_tie_some (mirrorSnapshot c8Boundary) (mirrorPt ⟨1/2, 3/10, none⟩)
      (mirrorPt ⟨3/5, 1/2, none⟩) (mirrorPt ⟨2/5, 1/2, none⟩) rfl rfl rfl rfl]
    have hc : ¬ ((mirrorPt (⟨1/2, 3/10, none⟩ : Pt)).x <
        ((mirrorPt (⟨3/5, 1/2, none⟩ : Pt)).x +
          (mirrorPt (⟨2/5, 1/2, none⟩ : Pt)).x) / 2) := by
      norm_num [mirrorPt]
    rw [if_neg hc]

theorem claim_C8_witness :
    detectCameraSide (mirrorSnapshot c4WitnessSnapshot) = .left :=
  (claim_C8 c4WitnessSnapshot).1 ((claim_C4 c4WitnessSnapshot).1 (by decide))

/-- Claim C5: the fixed advisory string of a joint appears in the recommendation
list exactly when the score of that joint is at least 3; the advisories appear
in the fixed order upper arm, lower arm, neck, trunk, wrist; when no joint
reaches 3 the list is exactly the single affirmative string; the list is
never empty. -/
theorem claim_C5 (ua la w n t : ℕ) :
    (recUpperArm ∈ getRecommendations ua la w n t ↔ 3 ≤ ua) ∧
    (recLowerArm ∈ getRecommendations ua la w n t ↔ 3 ≤ la) ∧
    (recNeck ∈ getRecommendations ua la w n t ↔ 3 ≤ n) ∧
    (recTrunk ∈ getRecommendations ua la w n t ↔ 3 ≤ t) ∧
    (recWrist ∈ getRecommendations ua la w n t ↔ 3 ≤ w) ∧
    getRecommendations ua la w n t ≠ [] ∧
    (¬ 3 ≤ ua ∧ ¬ 3 ≤ la ∧ ¬ 3 ≤ n ∧ ¬ 3 ≤ t ∧ ¬ 3 ≤ w →
      getRecommendations ua la w n t = [recExcellent]) ∧
    List.Sublist (getRecommendations ua la w n t)
      [recUpperArm, recLowerArm, recNeck, recTrunk, recWrist, recExcellent] := by
  by_cases hua : 3 ≤ ua <;> by_cases hla : 3 ≤ la <;> by_cases hn : 3 ≤ n <;>
    by_cases ht : 3 ≤ t <;> by_cases hw : 3 ≤ w <;>
      simp [getRecommendations, hua, hla, hn, ht, hw] <;> decide

theorem claim_C5_witness :
    recUpperArm ∈ getRecommendations 3 1 1 1 1 ∧
    getRecommendations 1 1 1 1 1 = [recExcellent] :=
  ⟨(claim_C5 3 1 1 1 1).1.mpr (by norm_num),
   (claim_C5 1 1 1 1 1).2.2.2.2.2.2.1 (by norm_num)⟩

/-- The scenario snapshot of claim C7: left shoulder (0.5, 0.5), left elbow
(0.55, 0.65), left hip (0.5, 0.8), everything else absent. -/
def c7Snapshot : PostureLandmarks :=
  { emptySnapshot with
    leftShoulder := some ⟨1/2, 1/2, none⟩
    leftElbow := some ⟨11/20, 13/20, none⟩
    leftHip := some ⟨1/2, 4/5, none⟩ }

lemma getUpperArmScore_of_neg (T : Trig) (lm : PostureLandmarks)
    (cs : CameraSide) (s e : Pt)
    (hs : (getPrimaryLandmarks lm cs).shoulder = some s)
    (he : (getPrimaryLandmarks lm cs).elbow = some e)
    (hneg : calculateArmAngleFromDown T s e cs < 0) :
    getUpperArmScore T lm cs = 4 := by
  unfold getUpperArmScore
  simp only [hs, he]
  split_ifs with h1 h2 h3 h4 h5
  · exfalso; linarith [h1.1]
  · exfalso; linarith [h2.1]
  · exfalso; linarith [h3.1]
  · exfalso; linarith [h4.1]
  · exfalso; linarith [h5]
  · rfl

/-- Claim C7 (amended): on the scenario snapshot the camera side resolves
to right, but the upper-arm classifier does not fall back to the neutral
score 2: shoulder and elbow are both present, the camera-normalized angle
from the downward vertical is negative (the elbow sits behind the shoulder
for a right-side camera), and the classifier returns 4. -/
theorem claim_C7 (T : Trig)
    (hneg : ∀ x y : ℚ, x < 0 → 0 < y → T.atan2deg x y < 0) :
    detectCameraSide c7Snapshot = .right ∧
    getUpperArmScore T c7Snapshot (detectCameraSide c7Snapshot) = 4 := by
  have hd : detectCameraSide c7Snapshot = .right :=
    detect_right_of_lt _ (by decide)
  refine ⟨hd, ?_⟩
  rw [hd]
  refine getUpperArmScore_of_neg T c7Snapshot .right ⟨1/2, 1/2, none⟩
    ⟨11/20, 13/20, none⟩ rfl rfl ?_
  show T.atan2deg (-((11 : ℚ)/20 - 1/2)) ((13 : ℚ)/20 - 1/2) < 0
  apply hneg <;> norm_num

theorem claim_C7_counterexample :
    detectCameraSide c7Snapshot = .right ∧
    getUpperArmScore ratTrig c7Snapshot (detectCameraSide c7Snapshot) ≠ 2 := by
  have hd : detectCameraSide c7Snapshot = .right :=
    detect_right_of_lt _ (by decide)
  refine ⟨hd, ?_⟩
  rw [hd]
  have h4 : getUpperArmScore ratTrig c7Snapshot .right = 4 := by
    refine getUpperArmScore_of_neg ratTrig c7Snapshot .right ⟨1/2, 1/2, none⟩
      ⟨11/20, 13/20, none⟩ rfl rfl ?_
    show ratAtan2deg (-((11 : ℚ)/20 - 1/2)) ((13 : ℚ)/20 - 1/2) < 0
    apply ratAtan2deg_neg_of_pos <;> norm_num
  rw [h4]
  norm_num

theorem claim_C7_witness :
    detectCameraSide c7Snapshot = .right ∧
    getUpperArmScore ratTrig c7Snapshot (detectCameraSide c7Snapshot) = 4 :=
  claim_C7 ratTrig (fun x y hx hy => ratAtan2deg_neg_of_pos x y hx hy)

theorem claim_C1_witness :
    (calculateRULAScore ratTrig emptySnapshot).recommendations ≠ [] :=
  (claim_C1 ratTrig emptySnapshot).2.2.2.2.2.2.2.2.2.2.2.2.2.2

theorem claim_C10_witness :
    (calculateRULAScore ratTrig emptySnapshot).finalScore ≤ 6 ∧
    (calculateRULAScore ratTrig emptySnapshot).risk ≠ .veryHigh :=
  claim_C10 ratTrig emptySnapshot
